import Mathlib

/-!
Verification of the event-driven coordination core of the Nexus terminal
network dashboard, against its natural-language specification.

The Rust sources are shallowly embedded: pure state-mutating methods become
Lean functions on explicit state records, machine integers (u8/u16/u32/u64)
become Nat (the embedded operations never overflow their Rust widths or, as
with the saturating counter deltas, are modelled with the same truncated
subtraction Nat provides), HashMap becomes an association list, and fallible
operations return Except/Option.

The repository mixes three near-duplicate iterations of the project:
  - src/network/stats.rs, src/app.rs, src/network/types.rs (the dashboard
    iteration, embedded in namespaces Stats and Dash below),
  - src/event.rs and src/network/signals.rs (the command-event iteration,
    embedded in namespaces Core and Signals), and
  - src/main.rs together with src/ui/ (callers of an AppMode-based App whose
    own source file is absent from the repository snapshot; its state machine
    is modelled from the specification in namespace SpecApp, with each
    spec-modelled definition marked as such in its doc comment).
-/

namespace Stats

/-- Embeds HISTORY_MAX from src/network/stats.rs: the cap on the per-interface
rate history ring buffers. -/
def HISTORY_MAX : Nat := 60

/-- One enumeration of an interface's cumulative counters, as read from
/sys/class/net by read_stat in src/network/stats.rs.  A read failure is
`unwrap_or(0)` in the source, so every counter is just a Nat here. -/
structure Reading where
  rx_bytes : Nat
  tx_bytes : Nat
  rx_packets : Nat
  tx_packets : Nat
  rx_errors : Nat
  tx_errors : Nat
  rx_dropped : Nat
  tx_dropped : Nat
  deriving DecidableEq, Repr

/-- Embeds InterfaceStats from src/network/types.rs.  The rates are f64 in
the source but always hold exact nonnegative integer values there (casts of
u64 saturating differences), so they are carried as Nat. -/
structure InterfaceStats where
  rx_bytes : Nat := 0
  tx_bytes : Nat := 0
  rx_packets : Nat := 0
  tx_packets : Nat := 0
  rx_errors : Nat := 0
  tx_errors : Nat := 0
  rx_dropped : Nat := 0
  tx_dropped : Nat := 0
  rx_rate : Nat := 0
  tx_rate : Nat := 0
  rx_history : List Nat := []
  tx_history : List Nat := []
  deriving DecidableEq, Repr

/-- Embeds the history append of StatsPoller::poll (src/network/stats.rs
lines 57-65): push the sample, then remove index 0 when the length exceeds
HISTORY_MAX.  Removing index 0 is `List.drop 1`. -/
def pushHistory (h : List Nat) (x : Nat) : List Nat :=
  let h2 := h ++ [x]
  if HISTORY_MAX < h2.length then h2.drop 1 else h2

/-- Embeds the per-interface body of StatsPoller::poll (src/network/stats.rs
lines 40-66): store the fresh cumulative counters, and when a previous
(rx, tx) sample exists compute the saturating deltas, store them as the
rates and append them to both histories. -/
def pollInterface (prev : Option (Nat × Nat)) (entry : InterfaceStats)
    (r : Reading) : InterfaceStats :=
  let e := { entry with
    rx_bytes := r.rx_bytes, tx_bytes := r.tx_bytes,
    rx_packets := r.rx_packets, tx_packets := r.tx_packets,
    rx_errors := r.rx_errors, tx_errors := r.tx_errors,
    rx_dropped := r.rx_dropped, tx_dropped := r.tx_dropped }
  match prev with
  | some (prev_rx, prev_tx) =>
      let rx_delta := r.rx_bytes - prev_rx
      let tx_delta := r.tx_bytes - prev_tx
      { e with
        rx_rate := rx_delta
        tx_rate := tx_delta
        rx_history := pushHistory e.rx_history rx_delta
        tx_history := pushHistory e.tx_history tx_delta }
  | none => e

/-- Association-list lookup standing in for HashMap::get. -/
def alookup (m : List (String × α)) (k : String) : Option α :=
  match m with
  | [] => none
  | (k2, v) :: rest => if k2 = k then some v else alookup rest k

/-- Association-list insert standing in for HashMap::insert (replaces the
existing binding in place, otherwise appends). -/
def ainsert (m : List (String × α)) (k : String) (v : α) : List (String × α) :=
  match m with
  | [] => [(k, v)]
  | (k2, v2) :: rest =>
      if k2 = k then (k2, v) :: rest else (k2, v2) :: ainsert rest k v

/-- Embeds the StatsPoller state of src/network/stats.rs: the previous
(rx_bytes, tx_bytes) snapshot and the per-interface statistics map. -/
structure StatsPoller where
  previous : List (String × (Nat × Nat))
  stats : List (String × InterfaceStats)
  deriving DecidableEq, Repr

/-- Embeds StatsPoller::new. -/
def StatsPoller.new : StatsPoller := { previous := [], stats := [] }

/-- Embeds one loop iteration of StatsPoller::poll for a single interface:
fetch (or default) its stats entry, update it via `pollInterface`, and record
the new previous sample. -/
def pollStep (p : StatsPoller) (iface : String) (r : Reading) : StatsPoller :=
  let entry := (alookup p.stats iface).getD {}
  let entry2 := pollInterface (alookup p.previous iface) entry r
  { previous := ainsert p.previous iface (r.rx_bytes, r.tx_bytes)
  , stats := ainsert p.stats iface entry2 }

/-- Embeds StatsPoller::poll (src/network/stats.rs lines 24-74).  The input
is the interface enumeration paired with the counters read for each
interface.  After the per-interface pass, entries for interfaces absent from
the enumeration are retained out of both maps. -/
def poll (p : StatsPoller) (input : List (String × Reading)) : StatsPoller :=
  let p2 := input.foldl (fun acc ir => pollStep acc ir.1 ir.2) p
  { previous := p2.previous.filter (fun kv => input.any (fun ir => ir.1 = kv.1))
  , stats := p2.stats.filter (fun kv => input.any (fun ir => ir.1 = kv.1)) }

/-- All histories of the poller are within the HISTORY_MAX cap. -/
def HistBounded (p : StatsPoller) : Prop :=
  ∀ kv ∈ p.stats, kv.2.rx_history.length ≤ HISTORY_MAX ∧
    kv.2.tx_history.length ≤ HISTORY_MAX

end Stats

namespace Core

/-- Modelled from the spec: the security class of a NetworkRecord (§3).  The
type itself belongs to the command-event iteration's types module, absent from
the repository snapshot; the constructor set mirrors WifiSecurity in
src/network/types.rs. -/
inductive Security
  | Open
  | WEP
  | WPA
  | WPA2
  | WPA3
  | Enterprise
  | Unknown
  deriving DecidableEq, Repr

/-- Modelled from the spec: one visible access point (NetworkRecord, §3):
identity, signal strength, security class, saved/active flags, and the two
animation-only fields display_signal and seen_ticks.  Field names follow the
uses in src/animation/transitions.rs and src/ui/network_list.rs.  The
display_signal is f32 in the source; the verified operations only copy it, so
it is carried as an exact rational. -/
structure WiFiNetwork where
  ssid : String
  bssid : String
  signal_strength : Nat
  security : Security
  is_saved : Bool
  is_active : Bool
  display_signal : ℚ
  seen_ticks : Nat
  deriving DecidableEq, Repr

/-- Modelled from the spec: info about the current connection (§6.2
current_connection), with the fields read by src/ui/header.rs. -/
structure ConnectionInfo where
  ssid : String
  ip4 : Option String
  frequency : Nat
  speed : Nat
  deriving DecidableEq, Repr

/-- Modelled from the spec and the uses in src/main.rs: the terminal result of
a connection-affecting operation (Connected / Disconnected / Failed). -/
inductive ConnectionStatus
  | Connected (info : ConnectionInfo)
  | Disconnected
  | Failed (msg : String)
  deriving DecidableEq, Repr

/-- Embeds NetworkCommand from src/event.rs lines 13-32. -/
inductive NetworkCommand
  | Connect (ssid : String) (password : Option String)
  | ConnectHidden (ssid : String) (password : Option String)
  | Disconnect
  | Forget (ssid : String)
  | Scan
  | RefreshConnection
  deriving DecidableEq, Repr

/-- Modelled from the spec: the key alphabet of the state machine.  The
source's crossterm KeyEvent is abstracted to the intents the transition table
of §4.2 names; quit is its own symbol (the quit chord), so that the quit key
is distinguishable from ordinary characters in every mode. -/
inductive Key
  | quit
  | connectSelected
  | disconnectKey
  | scanKey
  | submit
  | char (c : Char)
  | other (code : Nat)
  deriving DecidableEq, Repr

/-- Embeds Event from src/event.rs lines 36-51, with the key payload
abstracted to `Key`. -/
inductive Event
  | Key (k : Core.Key)
  | Tick
  | Resize (w : Nat) (h : Nat)
  | NetworkScan (networks : List WiFiNetwork)
  | ConnectionChanged (status : ConnectionStatus)
  | Command (cmd : NetworkCommand)
  | Error (msg : String)
  deriving DecidableEq, Repr

end Core

namespace Signals

/-- A property-change notification delivered to the D-Bus message stream of
subscribe_device_signals (src/network/signals.rs): its arrival instant and
whether its member is PropertiesChanged. -/
structure Msg where
  time : Nat
  props_changed : Bool
  deriving DecidableEq, Repr

/-- Embeds the debounce interval of subscribe_device_signals
(src/network/signals.rs line 77): two time-units (seconds). -/
def DEBOUNCE : Nat := 2

/-- Embeds the debounce loop of subscribe_device_signals
(src/network/signals.rs lines 74-101): last_signal starts at the instant the
listener task starts; a PropertiesChanged message whose elapsed time since
last_signal reaches DEBOUNCE sends Command(RefreshConnection) and resets
last_signal to its own instant.  Returns the (instant, event) pairs sent. -/
def debounceTriggers (last : Nat) : List Msg → List (Nat × Core.Event)
  | [] => []
  | m :: rest =>
      if m.props_changed = true ∧ DEBOUNCE ≤ m.time - last then
        (m.time, .Command .RefreshConnection) :: debounceTriggers m.time rest
      else
        debounceTriggers last rest

/-- The observable setup performed by start_signal_listener: how many times it
attempted the subscription, whether it propagated an error to its caller, and
the interval of the fallback poll loop it spawned (none when subscribed). -/
structure ListenerSetup where
  subscribe_attempts : Nat
  propagates_error : Bool
  fallback_poll_interval : Option Nat
  deriving DecidableEq, Repr

/-- Embeds start_signal_listener (src/network/signals.rs lines 13-49): the
subscription is attempted exactly once; on failure the error is only logged
(the function still returns normally) and a fixed 5-second poll loop is
spawned; on success no fallback poll is spawned (the slower 15-second safety
net lives inside subscribe_device_signals instead). -/
def start_signal_listener (sub_result : Except String Unit) : ListenerSetup :=
  { subscribe_attempts := 1
  , propagates_error := false
  , fallback_poll_interval :=
      match sub_result with
      | .ok _ => none
      | .error _ => some 5 }

/-- Instant of the k-th emission of the fallback poll loop spawned on
subscribe failure (src/network/signals.rs lines 31-45): a tokio interval of
5 seconds fires immediately and then every 5 seconds, forever. -/
def fallback_emit_time (k : Nat) : Nat := 5 * k

/-- The event the fallback poll loop sends on each firing
(src/network/signals.rs lines 36-43). -/
def fallback_emit_event (_k : Nat) : Core.Event :=
  .Command .RefreshConnection

end Signals

namespace SpecApp

/-- Modelled from the spec: the exclusive Mode of the application state
machine (§3).  The constructor set is confirmed by the matches in
src/ui/status_bar.rs and src/ui/mod.rs; the App source file defining it is
absent from the repository snapshot. -/
inductive AppMode
  | Normal
  | Scanning
  | PasswordInput (ssid : String)
  | Connecting
  | Disconnecting
  | Hidden
  | Help
  | Search
  | Error (msg : String)
  deriving DecidableEq, Repr

/-- Modelled from the spec: the busy modes are Connecting, Disconnecting and
Scanning (§3, §4.2). -/
def AppMode.isBusy : AppMode → Bool
  | .Connecting => true
  | .Disconnecting => true
  | .Scanning => true
  | _ => false

/-- Modelled from the spec: the mutable state the AppMode machine owns that
the claims touch — mode, exit flag, the network list, the selection, the
stored connection status, the password entry buffer, the tick counter, and
the commands handed to the dispatcher (recorded in dispatch order). -/
structure App where
  mode : AppMode
  should_quit : Bool
  networks : List Core.WiFiNetwork
  selected_index : Nat
  connection_status : Core.ConnectionStatus
  input_buffer : String
  tick_count : Nat
  dispatched : List Core.NetworkCommand
  deriving DecidableEq, Repr

/-- Modelled from the spec: handing an intent to the Command Dispatcher
appends one unit of work; dispatching Connect/Disconnect while the Mode is
busy is a no-op (§4.2, §8: the dispatcher must not be invoked twice
concurrently for the same resource). -/
def dispatch (app : App) (cmd : Core.NetworkCommand) : App :=
  match cmd, app.mode.isBusy with
  | .Connect _ _, true => app
  | .ConnectHidden _ _, true => app
  | .Disconnect, true => app
  | _, _ => { app with dispatched := app.dispatched ++ [cmd] }

/-- Modelled from the spec: Normal + select-network-and-connect (§4.2): an
already-active selection is left alone; a network that requires a credential
and is not already known goes to PasswordInput; otherwise Connect is
dispatched with no password and the Mode becomes Connecting. -/
def connect_selected (app : App) : App :=
  match app.networks.get? app.selected_index with
  | none => app
  | some net =>
      if net.is_active then app
      else if net.security ≠ .Open ∧ net.is_saved = false then
        { app with mode := .PasswordInput net.ssid }
      else
        { dispatch app (.Connect net.ssid none) with mode := .Connecting }

/-- Modelled from the spec: the key handler of the AppMode state machine
(§4.2).  Busy modes accept only the quit key and ignore everything else; any
non-busy mode quits on the quit key; Normal mode drives connect, disconnect
and scan; PasswordInput edits and submits the credential (an empty entry maps
to no password). -/
def handle_key (app : App) (k : Core.Key) : App :=
  if app.mode.isBusy then
    match k with
    | .quit => { app with should_quit := true }
    | _ => app
  else
    match app.mode, k with
    | _, .quit => { app with should_quit := true }
    | .Normal, .connectSelected => connect_selected app
    | .Normal, .disconnectKey =>
        { dispatch app .Disconnect with mode := .Disconnecting }
    | .Normal, .scanKey =>
        { dispatch app .Scan with mode := .Scanning }
    | .PasswordInput ssid, .submit =>
        { dispatch app
            (.Connect ssid
              (if app.input_buffer = "" then none else some app.input_buffer))
          with mode := .Connecting, input_buffer := "" }
    | .PasswordInput _, .char c =>
        { app with input_buffer := app.input_buffer.push c }
    | _, _ => app

/-- Modelled from the spec: merge-by-SSID on a scan result (§3
NetworkRecord): the network list is replaced wholesale, but display_signal
and seen_ticks are carried over from the old entry with the matching SSID so
visual continuity is preserved.  The method itself (App::update_networks,
called at src/main.rs line 161) is absent from the repository snapshot. -/
def update_networks (old fresh : List Core.WiFiNetwork) : List Core.WiFiNetwork :=
  fresh.map fun n =>
    match old.find? (fun o => o.ssid == n.ssid) with
    | some o => { n with display_signal := o.display_signal
                       , seen_ticks := o.seen_ticks }
    | none => n

/-- Modelled from the spec: Connecting/Disconnecting + ConnectionStatusChanged
transitions to Normal regardless of success or failure, and the status itself
is stored (§4.2).  The method (App::update_connection_status, called at
src/main.rs line 165) is absent from the repository snapshot. -/
def update_connection_status (app : App) (status : Core.ConnectionStatus) : App :=
  { app with
    connection_status := status
    mode :=
      match app.mode with
      | .Connecting => .Normal
      | .Disconnecting => .Normal
      | m => m }

/-- Modelled from the spec and the event match of src/main.rs lines 147-175:
route each multiplexed event to the state machine. -/
def handle_event (app : App) (e : Core.Event) : App :=
  match e with
  | .Key k => handle_key app k
  | .Tick => { app with tick_count := app.tick_count + 1 }
  | .Resize _ _ => app
  | .NetworkScan nets =>
      { app with
        networks := update_networks app.networks nets
        mode := match app.mode with | .Scanning => .Normal | m => m }
  | .ConnectionChanged s => update_connection_status app s
  | .Command c => dispatch app c
  | .Error msg => { app with mode := .Error msg }

/-- Embeds the main event loop of src/main.rs lines 141-181 over the modelled
state machine: draw, take the next event from the multiplexer, handle it, and
break out of the loop — before retrieving any further input — once
should_quit is set.  Returns the final state and how many events were
consumed from the queue. -/
def run_loop (app : App) : List Core.Event → App × Nat
  | [] => (app, 0)
  | e :: rest =>
      let app2 := handle_event app e
      if app2.should_quit then (app2, 1)
      else
        let r := run_loop app2 rest
        (r.1, r.2 + 1)

end SpecApp

namespace Dash

/-- Embeds DeviceType from src/network/types.rs lines 9-20. -/
inductive DeviceType
  | Unknown
  | Ethernet
  | WiFi
  | Bridge
  | Bond
  | Vlan
  | Tunnel
  | Loopback
  | WireGuard
  | Other (code : Nat)
  deriving DecidableEq, Repr

/-- Embeds DeviceState from src/network/types.rs lines 78-92. -/
inductive DeviceState
  | Unknown
  | Unmanaged
  | Unavailable
  | Disconnected
  | Prepare
  | Config
  | NeedAuth
  | IpConfig
  | IpCheck
  | Secondaries
  | Activated
  | Deactivating
  | Failed
  deriving DecidableEq, Repr

/-- Embeds ConnectivityState from src/network/types.rs lines 158-164. -/
inductive ConnectivityState
  | Unknown
  | None
  | Portal
  | Limited
  | Full
  deriving DecidableEq, Repr

/-- Embeds WifiSecurity from src/network/types.rs lines 228-236. -/
inductive WifiSecurity
  | Open
  | WEP
  | WPA
  | WPA2
  | WPA3
  | Enterprise
  | Unknown
  deriving DecidableEq, Repr

/-- Embeds DeviceInfo from src/network/types.rs lines 199-216 (D-Bus object
paths are carried as strings). -/
structure DeviceInfo where
  path : String
  interface : String
  device_type : DeviceType
  state : DeviceState
  hw_address : String
  ip4_address : Option String
  ip4_gateway : Option String
  ip4_dns : List String
  ip4_subnet : Option String
  ip6_address : Option String
  mtu : Nat
  speed : Nat
  driver : String
  active_connection_path : Option String
  connection_name : Option String
  autoconnect : Bool
  deriving DecidableEq, Repr

/-- Embeds WifiAccessPoint from src/network/types.rs lines 284-294. -/
structure WifiAccessPoint where
  path : String
  ssid : String
  bssid : String
  frequency : Nat
  channel : Nat
  strength : Nat
  security : WifiSecurity
  is_saved : Bool
  is_active : Bool
  deriving DecidableEq, Repr

/-- Embeds ConnectionProfile from src/network/types.rs lines 345-353. -/
structure ConnectionProfile where
  path : String
  id : String
  uuid : String
  conn_type : String
  interface : Option String
  autoconnect : Bool
  timestamp : Nat
  deriving DecidableEq, Repr

/-- Embeds ActiveConnectionState from src/network/types.rs lines 395-401. -/
inductive ActiveConnectionState
  | Unknown
  | Activating
  | Activated
  | Deactivating
  | Deactivated
  deriving DecidableEq, Repr

/-- Embeds ActiveConnection from src/network/types.rs lines 385-392. -/
structure ActiveConnection where
  path : String
  id : String
  uuid : String
  conn_type : String
  state : ActiveConnectionState
  devices : List String
  deriving DecidableEq, Repr

/-- Embeds DnsInfo from src/network/types.rs lines 469-472. -/
structure DnsInfo where
  servers : List String
  search_domains : List String
  deriving DecidableEq, Repr

/-- Embeds NetworkState from src/network/types.rs lines 538-551 (the stats
HashMap is an association list of Stats.InterfaceStats). -/
structure NetworkState where
  connectivity : ConnectivityState
  wireless_enabled : Bool
  networking_enabled : Bool
  devices : List DeviceInfo
  active_connections : List ActiveConnection
  wifi_access_points : List WifiAccessPoint
  saved_connections : List ConnectionProfile
  stats : List (String × Stats.InterfaceStats)
  dns : DnsInfo
  hostname : String
  nm_version : String
  nm_running : Bool
  deriving DecidableEq, Repr

/-- Embeds Page from src/app.rs lines 17-23. -/
inductive Page
  | Dashboard
  | Interfaces
  | Wifi
  | Connections
  | Diagnostics
  deriving DecidableEq, Repr

/-- Embeds Mode from src/app.rs lines 26-31 (this iteration's modal states:
Normal, text Input, confirm Dialog, list Filtering). -/
inductive Mode
  | Normal
  | Input
  | Dialog
  | Filtering
  deriving DecidableEq, Repr

/-- Embeds InterfacesPageState from src/app.rs lines 36-38. -/
structure InterfacesPageState where
  selected_index : Nat
  deriving DecidableEq, Repr

/-- Embeds WifiPageState from src/app.rs lines 41-45. -/
structure WifiPageState where
  selected_index : Nat
  filter : String
  scanning : Bool
  deriving DecidableEq, Repr

/-- Embeds ConnectionsPageState from src/app.rs lines 48-50. -/
structure ConnectionsPageState where
  selected_index : Nat
  deriving DecidableEq, Repr

/-- Embeds PendingAction from src/app.rs lines 55-58. -/
inductive PendingAction
  | DeleteConnection (path : String) (name : String)
  | DisconnectDevice (path : String) (name : String)
  deriving DecidableEq, Repr

/-- Embeds the data fields of App from src/app.rs lines 62-96.  The widget
and handle fields that carry no machine state (theme, dialog widgets, the
backend handle nm, the channel sender event_tx, diagnostics output) are
omitted; the verified operations neither read nor write them. -/
structure App where
  active_page : Page
  mode : Mode
  should_quit : Bool
  network_state : Option NetworkState
  interfaces_state : InterfacesPageState
  wifi_state : WifiPageState
  connections_state : ConnectionsPageState
  show_help_bar : Bool
  toast_message : Option String
  toast_is_error : Bool
  toast_ticks : Nat
  pending_action : Option PendingAction
  deriving DecidableEq, Repr

/-- Embeds App::show_toast (src/app.rs lines 230-234): store the message and
error flag and arm the countdown at 12 ticks. -/
def show_toast (app : App) (message : String) (is_error : Bool) : App :=
  { app with
    toast_message := some message
    toast_is_error := is_error
    toast_ticks := 12 }

/-- Embeds App::tick_toast (src/app.rs lines 236-243): when the countdown is
positive, decrement it, and clear the message at the instant it reaches
zero; a zero countdown is left untouched. -/
def tick_toast (app : App) : App :=
  if 0 < app.toast_ticks then
    let t := app.toast_ticks - 1
    if t = 0 then { app with toast_ticks := t, toast_message := none }
    else { app with toast_ticks := t }
  else app

/-- Embeds the Event::NetworkRefresh arm of App::handle_event (src/app.rs
lines 1129-1151): store the snapshot, clear the wifi scanning flag, and clamp
each of the three selection indices to its list's last element whenever the
index is out of range and the list is non-empty.  The source performs the
three clamps as consecutive mutations, but each clamp reads only the index it
writes, so they are presented here as one simultaneous record update. -/
def handle_network_refresh (app : App) (st : NetworkState) : App :=
  { app with
    network_state := some st
    interfaces_state :=
      if st.devices.length ≤ app.interfaces_state.selected_index ∧
          st.devices.length ≠ 0 then
        { app.interfaces_state with selected_index := st.devices.length - 1 }
      else app.interfaces_state
    wifi_state :=
      { app.wifi_state with
        scanning := false
        selected_index :=
          if st.wifi_access_points.length ≤ app.wifi_state.selected_index ∧
              st.wifi_access_points.length ≠ 0 then
            st.wifi_access_points.length - 1
          else app.wifi_state.selected_index }
    connections_state :=
      if st.saved_connections.length ≤ app.connections_state.selected_index ∧
          st.saved_connections.length ≠ 0 then
        { app.connections_state with selected_index := st.saved_connections.length - 1 }
      else app.connections_state }

end Dash

namespace Samples

/-- Concrete dashboard application state used to exercise the theorems. -/
def dashApp : Dash.App :=
  { active_page := .Wifi
  , mode := .Normal
  , should_quit := false
  , network_state := none
  , interfaces_state := { selected_index := 5 }
  , wifi_state := { selected_index := 7, filter := "", scanning := true }
  , connections_state := { selected_index := 0 }
  , show_help_bar := true
  , toast_message := some "saved"
  , toast_is_error := false
  , toast_ticks := 1
  , pending_action := none }

/-- Concrete device record used to exercise the theorems. -/
def eth0 : Dash.DeviceInfo :=
  { path := "/org/freedesktop/NetworkManager/Devices/1"
  , interface := "eth0"
  , device_type := .Ethernet
  , state := .Activated
  , hw_address := "aa:bb:cc:dd:ee:ff"
  , ip4_address := some "192.168.1.2"
  , ip4_gateway := some "192.168.1.1"
  , ip4_dns := ["1.1.1.1"]
  , ip4_subnet := some "255.255.255.0"
  , ip6_address := none
  , mtu := 1500
  , speed := 1000
  , driver := "e1000e"
  , active_connection_path := none
  , connection_name := some "Wired"
  , autoconnect := true }

/-- Concrete saved-connection record used to exercise the theorems. -/
def wiredProfile : Dash.ConnectionProfile :=
  { path := "/org/freedesktop/NetworkManager/Settings/1"
  , id := "Wired"
  , uuid := "4636b9bf-1c32-4e8b-90fa-6a47f6e73f69"
  , conn_type := "802-3-ethernet"
  , interface := some "eth0"
  , autoconnect := true
  , timestamp := 1700000000 }

/-- Concrete network snapshot: one device, no access points, two saved
connections. -/
def netState : Dash.NetworkState :=
  { connectivity := .Full
  , wireless_enabled := true
  , networking_enabled := true
  , devices := [eth0]
  , active_connections := []
  , wifi_access_points := []
  , saved_connections := [wiredProfile, { wiredProfile with id := "Wired 2", uuid := "x" }]
  , stats := []
  , dns := { servers := ["1.1.1.1"], search_domains := [] }
  , hostname := "arch"
  , nm_version := "1.44"
  , nm_running := true }

/-- Concrete open, inactive network record. -/
def cafeNet : Core.WiFiNetwork :=
  { ssid := "cafe"
  , bssid := "11:22:33:44:55:66"
  , signal_strength := 70
  , security := .Open
  , is_saved := false
  , is_active := false
  , display_signal := 40
  , seen_ticks := 9 }

/-- Concrete modelled application state in Normal mode with one open
network selected. -/
def normalApp : SpecApp.App :=
  { mode := .Normal
  , should_quit := false
  , networks := [cafeNet]
  , selected_index := 0
  , connection_status := .Disconnected
  , input_buffer := ""
  , tick_count := 0
  , dispatched := [] }

/-- Concrete modelled application state in a busy mode. -/
def busyApp : SpecApp.App :=
  { normalApp with mode := .Connecting }

/-- Concrete connection info for the connected terminal event. -/
def cafeInfo : Core.ConnectionInfo :=
  { ssid := "cafe", ip4 := some "10.0.0.7", frequency := 2437, speed := 144 }

end Samples

/-! ## Supporting lemmas and claim theorems -/

namespace Stats

theorem pushHistory_length_le (h : List Nat) (x : Nat)
    (hh : h.length ≤ HISTORY_MAX) : (pushHistory h x).length ≤ HISTORY_MAX := by
  unfold pushHistory
  simp only [List.length_append, List.length_cons]
  split <;> simp_all

theorem mem_ainsert {m : List (String × α)} {k : String} {v : α} {x : String × α}
    (hx : x ∈ ainsert m k v) : x ∈ m ∨ x = (k, v) := by
  induction m with
  | nil => simpa [ainsert] using hx
  | cons hd tl ih =>
      unfold ainsert at hx
      split at hx
      · rcases List.mem_cons.mp hx with h | h
        · right; rename_i heq; simp [h, heq]
        · left; exact List.mem_cons_of_mem _ h
      · rcases List.mem_cons.mp hx with h | h
        · left; simp [h]
        · rcases ih h with h2 | h2
          · left; exact List.mem_cons_of_mem _ h2
          · right; exact h2

theorem alookup_mem {m : List (String × α)} {k : String} {v : α}
    (h : alookup m k = some v) : (k, v) ∈ m := by
  induction m with
  | nil => simp [alookup] at h
  | cons hd tl ih =>
      unfold alookup at h
      split at h
      · rename_i heq
        simp only [Option.some.injEq] at h
        subst heq h
        exact List.mem_cons_self _ _
      · exact List.mem_cons_of_mem _ (ih h)

theorem pushHistory_eq_drop (h : List Nat) (x : Nat)
    (hh : h.length ≤ HISTORY_MAX) :
    pushHistory h x = (h ++ [x]).drop (h.length + 1 - HISTORY_MAX) := by
  unfold pushHistory
  simp only [List.length_append, List.length_cons, List.length_nil]
  split
  · rename_i hcond
    congr 1
    omega
  · rename_i hcond
    rw [Nat.sub_eq_zero_of_le (by omega), List.drop_zero]

theorem foldl_pushHistory :
    ∀ (xs h : List Nat), h.length ≤ HISTORY_MAX →
      xs.foldl pushHistory h =
        (h ++ xs).drop (h.length + xs.length - HISTORY_MAX) := by
  intro xs
  induction xs with
  | nil =>
      intro h hh
      simp [Nat.sub_eq_zero_of_le hh]
  | cons x t ih =>
      intro h hh
      have hlen := pushHistory_length_le h x hh
      have hstep : (x :: t).foldl pushHistory h =
          t.foldl pushHistory (pushHistory h x) := rfl
      rw [hstep, ih _ hlen, pushHistory_eq_drop h x hh]
      have hle : h.length + 1 - HISTORY_MAX ≤ (h ++ [x]).length := by
        simp
      have key : (h ++ [x]).drop (h.length + 1 - HISTORY_MAX) ++ t
          = ((h ++ [x]) ++ t).drop (h.length + 1 - HISTORY_MAX) :=
        (List.drop_append_of_le_length hle).symm
      have hassoc : (h ++ [x]) ++ t = h ++ x :: t := by simp
      rw [key, List.drop_drop, hassoc]
      congr 1
      simp only [List.length_drop, List.length_append, List.length_cons,
        List.length_nil]
      omega

theorem pollInterface_bounded (prev : Option (Nat × Nat))
    (entry : InterfaceStats) (r : Reading)
    (h1 : entry.rx_history.length ≤ HISTORY_MAX)
    (h2 : entry.tx_history.length ≤ HISTORY_MAX) :
    (pollInterface prev entry r).rx_history.length ≤ HISTORY_MAX ∧
      (pollInterface prev entry r).tx_history.length ≤ HISTORY_MAX := by
  unfold pollInterface
  cases prev with
  | none => exact ⟨h1, h2⟩
  | some pr =>
      cases pr
      exact ⟨pushHistory_length_le _ _ h1, pushHistory_length_le _ _ h2⟩

theorem pollStep_bounded (p : StatsPoller) (iface : String) (r : Reading)
    (hp : HistBounded p) : HistBounded (pollStep p iface r) := by
  intro kv hkv
  unfold pollStep at hkv
  simp only at hkv
  rcases mem_ainsert hkv with hold | hnew
  · exact hp kv hold
  · subst hnew
    apply pollInterface_bounded
    · cases hfind : alookup p.stats iface with
      | none => simp [hfind]
      | some v => exact (hp (iface, v) (alookup_mem hfind)).1
    · cases hfind : alookup p.stats iface with
      | none => simp [hfind]
      | some v => exact (hp (iface, v) (alookup_mem hfind)).2

theorem poll_bounded (p : StatsPoller) (input : List (String × Reading))
    (hp : HistBounded p) : HistBounded (poll p input) := by
  have hfold : ∀ (l : List (String × Reading)) (q : StatsPoller),
      HistBounded q →
      HistBounded (l.foldl (fun acc ir => pollStep acc ir.1 ir.2) q) := by
    intro l
    induction l with
    | nil => intro q hq; exact hq
    | cons hd tl ih =>
        intro q hq
        exact ih _ (pollStep_bounded q hd.1 hd.2 hq)
  intro kv hkv
  unfold poll at hkv
  simp only at hkv
  exact hfold input p hp kv (List.mem_of_mem_filter hkv)

theorem poll_runs_bounded (inputs : List (List (String × Reading))) :
    HistBounded (inputs.foldl poll StatsPoller.new) := by
  have hnew : HistBounded StatsPoller.new := by
    intro kv hkv
    simp [StatsPoller.new] at hkv
  have hfold : ∀ (l : List (List (String × Reading))) (q : StatsPoller),
      HistBounded q → HistBounded (l.foldl poll q) := by
    intro l
    induction l with
    | nil => intro q hq; exact hq
    | cons hd tl ih => intro q hq; exact ih _ (poll_bounded q hd hq)
  exact hfold inputs _ hnew

end Stats

theorem getLast?_tail_eq (l : List Nat) (h : 2 ≤ l.length) :
    l.tail.getLast? = l.getLast? := by
  match l with
  | [] => simp at h
  | [a] => simp at h
  | a :: b :: t => simp [List.getLast?_cons_cons]

/-- C5: over every run of poll() the per-interface rx/tx rate histories never
exceed HISTORY_MAX samples, and appending past the cap evicts exactly the
oldest sample: pushing HISTORY_MAX + 1 samples into an empty history leaves
exactly the tail of the pushed sequence, of length HISTORY_MAX, whose last
element is the sample pushed last. -/
theorem history_bounded_fifo (inputs : List (List (String × Stats.Reading)))
    (xs : List Nat) (hlen : xs.length = Stats.HISTORY_MAX + 1) :
    Stats.HistBounded (inputs.foldl Stats.poll Stats.StatsPoller.new) ∧
    xs.foldl Stats.pushHistory [] = xs.tail ∧
    (xs.foldl Stats.pushHistory []).length = Stats.HISTORY_MAX ∧
    (xs.foldl Stats.pushHistory []).getLast? = xs.getLast? := by
  have heq : xs.foldl Stats.pushHistory [] = xs.tail := by
    rw [Stats.foldl_pushHistory xs [] (by simp)]
    simp [hlen]
  refine ⟨Stats.poll_runs_bounded inputs, heq, ?_, ?_⟩
  · rw [heq, List.length_tail, hlen]
    simp
  · rw [heq]
    exact getLast?_tail_eq xs (by rw [hlen]; decide)

/-- Witness for C5 at a concrete sequence of HISTORY_MAX + 1 samples. -/
theorem history_bounded_fifo_witness :
    (List.range (Stats.HISTORY_MAX + 1)).length = Stats.HISTORY_MAX + 1 ∧
    (List.range (Stats.HISTORY_MAX + 1)).foldl Stats.pushHistory []
      = (List.range (Stats.HISTORY_MAX + 1)).tail :=
  ⟨by simp,
   (history_bounded_fifo [] (List.range (Stats.HISTORY_MAX + 1)) (by simp)).2.1⟩

/-- C6: with a previous sample present, poll() computes each rate as the
saturating difference of the cumulative counters — equal to
max 0 (current − previous) over the integers, hence never negative — and two
identical consecutive cumulative readings yield a zero rate. -/
theorem rate_saturating_nonneg (prev_rx prev_tx : Nat)
    (entry : Stats.InterfaceStats) (r : Stats.Reading) :
    ((Stats.pollInterface (some (prev_rx, prev_tx)) entry r).rx_rate : Int)
        = max 0 ((r.rx_bytes : Int) - (prev_rx : Int)) ∧
    ((Stats.pollInterface (some (prev_rx, prev_tx)) entry r).tx_rate : Int)
        = max 0 ((r.tx_bytes : Int) - (prev_tx : Int)) ∧
    (0 : Int) ≤ ((Stats.pollInterface (some (prev_rx, prev_tx)) entry r).rx_rate : Int) ∧
    (0 : Int) ≤ ((Stats.pollInterface (some (prev_rx, prev_tx)) entry r).tx_rate : Int) ∧
    (r.rx_bytes = prev_rx →
      (Stats.pollInterface (some (prev_rx, prev_tx)) entry r).rx_rate = 0) ∧
    (r.tx_bytes = prev_tx →
      (Stats.pollInterface (some (prev_rx, prev_tx)) entry r).tx_rate = 0) := by
  have hrx : (Stats.pollInterface (some (prev_rx, prev_tx)) entry r).rx_rate
      = r.rx_bytes - prev_rx := rfl
  have htx : (Stats.pollInterface (some (prev_rx, prev_tx)) entry r).tx_rate
      = r.tx_bytes - prev_tx := rfl
  have key : ∀ a b : Nat, ((a - b : Nat) : Int) = max 0 ((a : Int) - (b : Int)) := by
    intro a b
    omega
  refine ⟨?_, ?_, ?_, ?_, fun h => ?_, fun h => ?_⟩
  · rw [hrx]; exact key _ _
  · rw [htx]; exact key _ _
  · rw [hrx]; omega
  · rw [htx]; omega
  · rw [hrx]; omega
  · rw [htx]; omega

/-- Witness for C6: a counter reset below the previous sample still yields a
zero (never negative) rate, and identical consecutive readings yield zero. -/
theorem rate_saturating_nonneg_witness :
    (Stats.pollInterface (some (100, 40)) {} ⟨30, 40, 0, 0, 0, 0, 0, 0⟩).rx_rate = 0 ∧
    (Stats.pollInterface (some (100, 40)) {} ⟨30, 40, 0, 0, 0, 0, 0, 0⟩).tx_rate = 0 :=
  ⟨by decide,
   (rate_saturating_nonneg 100 40 {} ⟨30, 40, 0, 0, 0, 0, 0, 0⟩).2.2.2.2.2 rfl⟩

/-- C9: after the NetworkRefresh arm of App::handle_event runs, each of the
three selection indices is strictly below its list's length whenever that
list is non-empty, and is left unchanged whenever its list is empty. -/
theorem refresh_clamps_selection (app : Dash.App) (st : Dash.NetworkState) :
    (st.devices.length ≠ 0 →
      (Dash.handle_network_refresh app st).interfaces_state.selected_index
        < st.devices.length) ∧
    (st.devices.length = 0 →
      (Dash.handle_network_refresh app st).interfaces_state.selected_index
        = app.interfaces_state.selected_index) ∧
    (st.wifi_access_points.length ≠ 0 →
      (Dash.handle_network_refresh app st).wifi_state.selected_index
        < st.wifi_access_points.length) ∧
    (st.wifi_access_points.length = 0 →
      (Dash.handle_network_refresh app st).wifi_state.selected_index
        = app.wifi_state.selected_index) ∧
    (st.saved_connections.length ≠ 0 →
      (Dash.handle_network_refresh app st).connections_state.selected_index
        < st.saved_connections.length) ∧
    (st.saved_connections.length = 0 →
      (Dash.handle_network_refresh app st).connections_state.selected_index
        = app.connections_state.selected_index) := by
  have hclamp : ∀ (idx len : Nat), len ≠ 0 →
      (if len ≤ idx ∧ len ≠ 0 then len - 1 else idx) < len := by
    intro idx len hlen
    split <;> omega
  have hempty : ∀ (idx len : Nat), len = 0 →
      (if len ≤ idx ∧ len ≠ 0 then len - 1 else idx) = idx := by
    intro idx len hlen
    split <;> omega
  have hif : ∀ (ps : Dash.InterfacesPageState) (len : Nat),
      (if len ≤ ps.selected_index ∧ len ≠ 0 then
          { ps with selected_index := len - 1 }
        else ps).selected_index
      = (if len ≤ ps.selected_index ∧ len ≠ 0 then len - 1
          else ps.selected_index) := by
    intro ps len
    split <;> rfl
  have hcf : ∀ (ps : Dash.ConnectionsPageState) (len : Nat),
      (if len ≤ ps.selected_index ∧ len ≠ 0 then
          { ps with selected_index := len - 1 }
        else ps).selected_index
      = (if len ≤ ps.selected_index ∧ len ≠ 0 then len - 1
          else ps.selected_index) := by
    intro ps len
    split <;> rfl
  refine ⟨?_, ?_, ?_, ?_, ?_, ?_⟩ <;> intro h <;>
    simp only [Dash.handle_network_refresh, hif, hcf]
  · exact hclamp _ _ h
  · exact hempty _ _ h
  · exact hclamp _ _ h
  · exact hempty _ _ h
  · exact hclamp _ _ h
  · exact hempty _ _ h

/-- Witness for C9: one device (non-empty list, out-of-range index clamped
below the length) and no access points (empty list, index untouched). -/
theorem refresh_clamps_selection_witness :
    Samples.netState.devices.length ≠ 0 ∧
    (Dash.handle_network_refresh Samples.dashApp Samples.netState).interfaces_state.selected_index
      < Samples.netState.devices.length ∧
    Samples.netState.wifi_access_points.length = 0 ∧
    (Dash.handle_network_refresh Samples.dashApp Samples.netState).wifi_state.selected_index
      = Samples.dashApp.wifi_state.selected_index :=
  ⟨by decide,
   (refresh_clamps_selection Samples.dashApp Samples.netState).1 (by decide),
   by decide,
   (refresh_clamps_selection Samples.dashApp Samples.netState).2.2.2.1 (by decide)⟩

/-- C10: show_toast arms the countdown at exactly 12 ticks; tick_toast
decrements a positive countdown by one, keeps the message while the countdown
stays positive, clears it exactly when the countdown reaches zero, and leaves
the whole state unchanged when the countdown is already zero. -/
theorem toast_countdown (app : Dash.App) (m : String) (e : Bool) :
    (Dash.show_toast app m e).toast_ticks = 12 ∧
    (Dash.show_toast app m e).toast_message = some m ∧
    (0 < app.toast_ticks →
      (Dash.tick_toast app).toast_ticks = app.toast_ticks - 1) ∧
    (1 < app.toast_ticks →
      (Dash.tick_toast app).toast_message = app.toast_message) ∧
    (app.toast_ticks = 1 → (Dash.tick_toast app).toast_message = none) ∧
    (app.toast_ticks = 0 → Dash.tick_toast app = app) := by
  refine ⟨rfl, rfl, ?_, ?_, ?_, ?_⟩
  · intro h
    unfold Dash.tick_toast
    rw [if_pos h]
    by_cases h2 : app.toast_ticks - 1 = 0 <;> simp [h2]
  · intro h
    have h0 : 0 < app.toast_ticks := by omega
    have h1 : ¬ (app.toast_ticks - 1 = 0) := by omega
    unfold Dash.tick_toast
    rw [if_pos h0, if_neg h1]
  · intro h
    simp [Dash.tick_toast, h]
  · intro h
    simp [Dash.tick_toast, h]

/-- Witness for C10: a countdown at one clears the message on the next tick,
and a countdown at zero leaves the state untouched. -/
theorem toast_countdown_witness :
    Samples.dashApp.toast_ticks = 1 ∧
    (Dash.tick_toast Samples.dashApp).toast_message = none ∧
    Dash.tick_toast (Dash.tick_toast Samples.dashApp) = Dash.tick_toast Samples.dashApp :=
  ⟨rfl,
   (toast_countdown Samples.dashApp "" false).2.2.2.2.1 rfl,
   (toast_countdown (Dash.tick_toast Samples.dashApp) "" false).2.2.2.2.2 (by decide)⟩

/-- C4: when the subscription fails, start_signal_listener propagates no
error to its caller, attempts the subscription exactly once (no retry), and
spawns the fixed 5-second fallback poll, whose emissions are all
Command(RefreshConnection) and recur every 5 time-units without end. -/
theorem subscribe_failure_fallback (e : String) :
    (Signals.start_signal_listener (.error e)).propagates_error = false ∧
    (Signals.start_signal_listener (.error e)).subscribe_attempts = 1 ∧
    (Signals.start_signal_listener (.error e)).fallback_poll_interval = some 5 ∧
    (∀ k, Signals.fallback_emit_event k = .Command .RefreshConnection) ∧
    (∀ k, Signals.fallback_emit_time (k + 1) = Signals.fallback_emit_time k + 5) := by
  refine ⟨rfl, rfl, rfl, fun k => rfl, fun k => ?_⟩
  unfold Signals.fallback_emit_time
  ring

theorem debounceTriggers_ge (msgs : List Signals.Msg) :
    ∀ (last : Nat) (p : Nat × Core.Event),
      p ∈ Signals.debounceTriggers last msgs → last + Signals.DEBOUNCE ≤ p.1 := by
  induction msgs with
  | nil =>
      intro last p hp
      simp [Signals.debounceTriggers] at hp
  | cons m rest ih =>
      intro last p hp
      unfold Signals.debounceTriggers at hp
      split at hp
      · rename_i hc
        obtain ⟨hpc, hd⟩ := hc
        have hD : Signals.DEBOUNCE = 2 := rfl
        rcases List.mem_cons.mp hp with rfl | hmem
        · simp only
          omega
        · have hge := ih m.time p hmem
          omega
      · exact ih last p hp

/-- Any two consecutive RefreshConnection triggers produced by the debounce
loop are at least DEBOUNCE apart. -/
theorem debounceTriggers_chain (msgs : List Signals.Msg) :
    ∀ last : Nat,
      List.Chain' (fun a b => a.1 + Signals.DEBOUNCE ≤ b.1)
        (Signals.debounceTriggers last msgs) := by
  induction msgs with
  | nil =>
      intro last
      simp [Signals.debounceTriggers]
  | cons m rest ih =>
      intro last
      unfold Signals.debounceTriggers
      split
      · refine List.chain'_cons'.mpr ⟨?_, ih m.time⟩
        intro q hq
        exact debounceTriggers_ge rest m.time q (List.mem_of_mem_head? hq)
      · exact ih last

/-- Counterexample to C3 as stated: last_signal is initialised to the
listener's spawn instant, so with the listener started at instant 0, two
PropertiesChanged notifications 1 time-unit apart at instants 0 and 1
produce zero RefreshConnection commands — not the exactly one the claim
requires for a pair closer together than the debounce interval. -/
theorem debounce_startup_counterexample :
    Signals.debounceTriggers 0 [⟨0, true⟩, ⟨1, true⟩] = [] ∧
    ¬ ((Signals.debounceTriggers 0 [⟨0, true⟩, ⟨1, true⟩]).length = 1) := by
  decide

/-- C3 (amended): a notification triggers RefreshConnection iff the debounce
interval has elapsed since the last triggering notification, with the
listener's start instant as the initial reference; hence, once the first
notification arrives at least DEBOUNCE after the listener started, a pair of
notifications closer together than DEBOUNCE produces exactly one
RefreshConnection and a pair at least DEBOUNCE apart produces one each; and
any two consecutive triggers are at least DEBOUNCE apart. -/
theorem debounce_min_interval (s t1 t2 : Nat) (msgs : List Signals.Msg)
    (h1 : s + Signals.DEBOUNCE ≤ t1) (hord : t1 ≤ t2) :
    (t2 < t1 + Signals.DEBOUNCE →
      Signals.debounceTriggers s [⟨t1, true⟩, ⟨t2, true⟩]
        = [(t1, .Command .RefreshConnection)]) ∧
    (t1 + Signals.DEBOUNCE ≤ t2 →
      Signals.debounceTriggers s [⟨t1, true⟩, ⟨t2, true⟩]
        = [(t1, .Command .RefreshConnection), (t2, .Command .RefreshConnection)]) ∧
    List.Chain' (fun a b => a.1 + Signals.DEBOUNCE ≤ b.1)
      (Signals.debounceTriggers s msgs) := by
  have hD : Signals.DEBOUNCE = 2 := rfl
  refine ⟨?_, ?_, debounceTriggers_chain msgs s⟩
  · intro h2
    have c1 : Signals.DEBOUNCE ≤ t1 - s := by omega
    have c2 : ¬ Signals.DEBOUNCE ≤ t2 - t1 := by omega
    simp [Signals.debounceTriggers, c1, c2]
  · intro h2
    have c1 : Signals.DEBOUNCE ≤ t1 - s := by omega
    have c2 : Signals.DEBOUNCE ≤ t2 - t1 := by omega
    simp [Signals.debounceTriggers, c1, c2]

/-- Witness for the amended C3: listener start 0, notifications at instants
2 and 3 — closer together than the interval — produce exactly one
RefreshConnection. -/
theorem debounce_min_interval_witness :
    Signals.debounceTriggers 0 [⟨2, true⟩, ⟨3, true⟩]
      = [(2, .Command .RefreshConnection)] :=
  (debounce_min_interval 0 2 3 [] (by decide) (by decide)).1 (by decide)

/-- C1: in every busy mode (Connecting, Disconnecting, Scanning), every key
other than the quit key leaves the application state unchanged, and handing
Connect, ConnectHidden or Disconnect to the dispatcher is a no-op, so no
second Connect or Disconnect can be issued while one is in flight. -/
theorem busy_mode_ignores_input (app : SpecApp.App) (k : Core.Key)
    (hb : app.mode.isBusy = true) :
    (k ≠ .quit → SpecApp.handle_key app k = app) ∧
    (∀ ssid pw, SpecApp.dispatch app (.Connect ssid pw) = app) ∧
    (∀ ssid pw, SpecApp.dispatch app (.ConnectHidden ssid pw) = app) ∧
    SpecApp.dispatch app .Disconnect = app := by
  refine ⟨?_, ?_, ?_, ?_⟩
  · intro hk
    unfold SpecApp.handle_key
    rw [if_pos hb]
    cases k <;> simp_all
  · intro ssid pw
    simp [SpecApp.dispatch, hb]
  · intro ssid pw
    simp [SpecApp.dispatch, hb]
  · simp [SpecApp.dispatch, hb]

/-- Witness for C1: in Connecting mode an ordinary character is ignored and
a Connect or Disconnect intent is not dispatched. -/
theorem busy_mode_ignores_input_witness :
    Samples.busyApp.mode.isBusy = true ∧
    SpecApp.handle_key Samples.busyApp (.char 'x') = Samples.busyApp ∧
    SpecApp.dispatch Samples.busyApp (.Connect "cafe" none) = Samples.busyApp ∧
    SpecApp.dispatch Samples.busyApp .Disconnect = Samples.busyApp :=
  ⟨rfl,
   (busy_mode_ignores_input Samples.busyApp (.char 'x') rfl).1 (by decide),
   (busy_mode_ignores_input Samples.busyApp (.char 'x') rfl).2.1 "cafe" none,
   (busy_mode_ignores_input Samples.busyApp (.char 'x') rfl).2.2.2⟩

theorem find_ssid_of_nodup (old : List Core.WiFiNetwork)
    (o : Core.WiFiNetwork) (s : String)
    (hnd : (old.map Core.WiFiNetwork.ssid).Nodup)
    (ho : o ∈ old) (hs : o.ssid = s) :
    old.find? (fun x => x.ssid == s) = some o := by
  induction old with
  | nil => cases ho
  | cons hd tl ih =>
      simp only [List.map_cons, List.nodup_cons] at hnd
      rcases List.mem_cons.mp ho with rfl | hmem
      · simp [List.find?, hs]
      · have hne : (hd.ssid == s) = false := by
          rw [beq_eq_false_iff_ne]
          intro heq
          have hmm : o.ssid ∈ tl.map Core.WiFiNetwork.ssid :=
            List.mem_map_of_mem _ hmem
          rw [hs, ← heq] at hmm
          exact hnd.1 hmm
        rw [List.find?]
        rw [hne]
        exact ih hnd.2 hmem

/-- C2: after a scan-result merge, the element at each position of the fresh
list keeps exactly the display_signal and seen_ticks of the old network with
the same SSID (unique by the no-duplicate-SSIDs hypothesis) and takes every
other field — identity, strength, security, saved/active flags — from the
fresh element; the merged list is the fresh list's length. -/
theorem scan_merge_preserves_animation (old fresh : List Core.WiFiNetwork)
    (hnd : (old.map Core.WiFiNetwork.ssid).Nodup)
    (i : Nat) (n o : Core.WiFiNetwork)
    (hi : fresh[i]? = some n) (ho : o ∈ old) (hss : o.ssid = n.ssid) :
    (SpecApp.update_networks old fresh).length = fresh.length ∧
    (SpecApp.update_networks old fresh)[i]?
      = some { n with display_signal := o.display_signal
                    , seen_ticks := o.seen_ticks } := by
  constructor
  · simp [SpecApp.update_networks]
  · unfold SpecApp.update_networks
    rw [List.getElem?_map, hi]
    simp only [Option.map_some']
    rw [find_ssid_of_nodup old o n.ssid hnd ho hss]

/-- Witness for C2: a rescan of the cafe network with a new strength keeps
the old smoothed display value (40) and seen-tick count (9). -/
theorem scan_merge_preserves_animation_witness :
    (SpecApp.update_networks [Samples.cafeNet]
        [{ Samples.cafeNet with signal_strength := 55, display_signal := 0,
                                seen_ticks := 0 }])[0]?
      = some { Samples.cafeNet with signal_strength := 55 } :=
  (scan_merge_preserves_animation [Samples.cafeNet]
    [{ Samples.cafeNet with signal_strength := 55, display_signal := 0,
                            seen_ticks := 0 }]
    (by decide) 0
    { Samples.cafeNet with signal_strength := 55, display_signal := 0,
                           seen_ticks := 0 }
    Samples.cafeNet (by decide) (by decide) (by decide)).2

/-- C7: in every non-busy mode the quit key sets the exit flag, and once the
event that set it is handled the main loop consumes no further input: it
returns after exactly that one event, leaving the rest of the queue
untouched. -/
theorem quit_key_exits_loop (app : SpecApp.App) (rest : List Core.Event)
    (hb : app.mode.isBusy = false) :
    (SpecApp.handle_key app .quit).should_quit = true ∧
    SpecApp.run_loop app (.Key .quit :: rest)
      = (SpecApp.handle_key app .quit, 1) := by
  have hq : (SpecApp.handle_key app .quit).should_quit = true := by
    unfold SpecApp.handle_key
    rw [if_neg (by simp [hb])]
    cases app.mode <;> simp
  refine ⟨hq, ?_⟩
  simp only [SpecApp.run_loop, SpecApp.handle_event]
  rw [if_pos hq]

/-- Witness for C7: from Normal mode, the quit key ends the loop after one
event even with more input queued. -/
theorem quit_key_exits_loop_witness :
    Samples.normalApp.mode.isBusy = false ∧
    SpecApp.run_loop Samples.normalApp [.Key .quit, .Tick, .Tick]
      = (SpecApp.handle_key Samples.normalApp .quit, 1) :=
  ⟨rfl, (quit_key_exits_loop Samples.normalApp [.Tick, .Tick] rfl).2⟩

/-- C8: from Normal mode with an open, inactive network selected, the connect
key dispatches exactly one Connect command with no password and moves the
Mode to Connecting; processing the subsequent ConnectionStatusChanged
Connected event returns the Mode to Normal and stores the Connected
status. -/
theorem open_network_connect_scenario (app : SpecApp.App)
    (net : Core.WiFiNetwork) (info : Core.ConnectionInfo)
    (hm : app.mode = .Normal)
    (hsel : app.networks.get? app.selected_index = some net)
    (hopen : net.security = .Open)
    (hact : net.is_active = false) :
    (SpecApp.handle_key app .connectSelected).dispatched
      = app.dispatched ++ [.Connect net.ssid none] ∧
    (SpecApp.handle_key app .connectSelected).mode = .Connecting ∧
    (SpecApp.handle_event (SpecApp.handle_key app .connectSelected)
        (.ConnectionChanged (.Connected info))).mode = .Normal ∧
    (SpecApp.handle_event (SpecApp.handle_key app .connectSelected)
        (.ConnectionChanged (.Connected info))).connection_status
      = .Connected info := by
  have hk : SpecApp.handle_key app .connectSelected
      = { SpecApp.dispatch app (.Connect net.ssid none) with
          mode := .Connecting } := by
    unfold SpecApp.handle_key
    rw [if_neg (by simp [hm, SpecApp.AppMode.isBusy])]
    rw [hm]
    show SpecApp.connect_selected app = _
    unfold SpecApp.connect_selected
    rw [hsel]
    simp [hact, hopen]
  have hd : SpecApp.dispatch app (.Connect net.ssid none)
      = { app with dispatched := app.dispatched ++ [.Connect net.ssid none] } := by
    unfold SpecApp.dispatch
    rw [hm]
    rfl
  have hstatus : ∀ b : SpecApp.App, b.mode = .Connecting →
      (SpecApp.handle_event b (.ConnectionChanged (.Connected info))).mode
          = .Normal ∧
      (SpecApp.handle_event b (.ConnectionChanged (.Connected info))).connection_status
          = .Connected info := by
    intro b hbm
    unfold SpecApp.handle_event SpecApp.update_connection_status
    rw [hbm]
    exact ⟨rfl, rfl⟩
  refine ⟨?_, ?_, ?_, ?_⟩
  · rw [hk, hd]
  · rw [hk]
  · exact (hstatus _ (by rw [hk])).1
  · exact (hstatus _ (by rw [hk])).2

/-- Witness for C8 on the concrete open cafe network. -/
theorem open_network_connect_scenario_witness :
    (SpecApp.handle_key Samples.normalApp .connectSelected).dispatched
      = [.Connect "cafe" none] ∧
    (SpecApp.handle_key Samples.normalApp .connectSelected).mode = .Connecting ∧
    (SpecApp.handle_event (SpecApp.handle_key Samples.normalApp .connectSelected)
        (.ConnectionChanged (.Connected Samples.cafeInfo))).mode = .Normal ∧
    (SpecApp.handle_event (SpecApp.handle_key Samples.normalApp .connectSelected)
        (.ConnectionChanged (.Connected Samples.cafeInfo))).connection_status
      = .Connected Samples.cafeInfo :=
  (open_network_connect_scenario Samples.normalApp Samples.cafeNet
    Samples.cafeInfo rfl rfl rfl rfl)
